import Mathlib

/-!
# Verification of the ringless-drop-platform backend (`server.js`)

A shallow embedding of the request handlers of `src/server.js`:
user registration and login (`POST /api/auth/register`, `POST /api/auth/login`),
the campaign submission handler (`POST /api/campaigns`), the outbound
gateway call (`sendToSlybroadcast`) and the background progress timer
(`simulateCampaignProgress`).

The MySQL tables become Lean lists inside a `DBState`; the bcrypt hash and
compare functions and the JWT signing are external libraries and enter as
function parameters / plain payload records; `Date.now()` enters as a `now`
parameter; the outbound HTTP call's outcome enters as a `GatewayOutcome`
parameter (transport failure, or the response text).  JavaScript numbers in
the progress simulator are modelled as rationals.
-/

namespace RinglessDrop

/-- Campaign status enum of the `campaigns` table:
`ENUM('pending', 'running', 'completed', 'failed')`. -/
inductive CampaignStatus where
  | pending
  | running
  | completed
  | failed
deriving DecidableEq, Repr

/-- A row of the `users` table (the columns the handlers touch).
`credits` is a signed SQL `INT`: nothing in the schema stops it from going
negative. -/
structure User where
  id : Nat
  name : String
  email : String
  passwordHash : String
  credits : Int
  isAdmin : Bool
deriving DecidableEq, Repr

/-- A row of the `campaigns` table (the columns the handlers touch). -/
structure Campaign where
  id : String
  userId : Nat
  senderId : String
  recipientCount : Nat
  audioFileUrl : String
  audioFileType : String
  status : CampaignStatus
  progress : Int
  slybroadcastResponse : Option String
  creditsUsed : Nat
deriving DecidableEq, Repr

/-- A row of the `campaign_recipients` table. -/
structure Recipient where
  campaignId : String
  phoneNumber : String
deriving DecidableEq, Repr

/-- The database state shared by all handlers.  `nextUserId` models the
`AUTO_INCREMENT` counter of the `users` table. -/
structure DBState where
  users : List User
  nextUserId : Nat
  campaigns : List Campaign
  recipients : List Recipient
deriving Repr

/-- JavaScript truthiness of an optional string field of a JSON body:
`!x` is true when the field is absent or the empty string. -/
def truthyStr : Option String → Bool
  | none => false
  | some s => !s.isEmpty

/-- JavaScript truthiness of an optional array field: an array is always
truthy, even when empty; only an absent field is falsy. -/
def truthyList : Option (List String) → Bool
  | none => false
  | some _ => true

/-- The lookup `SELECT ... FROM users WHERE id = ?` followed by taking the first row:
`id` is the primary key. -/
def findUserById (l : List User) (uid : Nat) : Option User :=
  l.find? (fun u => u.id == uid)

/-- The debit `UPDATE users SET credits = credits - ? WHERE id = ?`: every matching
row gets the unconditional decrement. -/
def debitCredits (l : List User) (uid : Nat) (n : Int) : List User :=
  l.map fun u => if u.id == uid then { u with credits := u.credits - n } else u

/-- The credit balance the handlers would read back for `uid`. -/
def creditsOf (st : DBState) (uid : Nat) : Option Int :=
  (findUserById st.users uid).map User.credits

/-- The `[0-9]` character class. -/
def isDigitChar (c : Char) : Bool :=
  '0' ≤ c && c ≤ '9'

/-- The regular expression `/^[0-9]{10,15}$/` of the campaign handler:
10 to 15 characters, all decimal digits. -/
def phoneRegexTest (s : String) : Bool :=
  10 ≤ s.length && s.length ≤ 15 && s.toList.all isDigitChar

/-- JavaScript `s.trim()`: strip leading and trailing whitespace. -/
def jsTrim (s : String) : String :=
  String.mk
    (((s.data.dropWhile Char.isWhitespace).reverse.dropWhile
      Char.isWhitespace).reverse)

/-- The validation loop
`for (let number of receiverNumbers) if (!phoneRegex.test(number.trim())) ...`:
returns the first entry whose trimmed form fails the pattern (the error
message names the untrimmed entry). -/
def firstInvalidNumber : List String → Option String
  | [] => none
  | n :: ns =>
      if phoneRegexTest (jsTrim n) then firstInvalidNumber ns else some n

/-- The list-prefix test used by the substring check below. -/
def hasPrefixL : List Char → List Char → Bool
  | [], _ => true
  | _ :: _, [] => false
  | a :: as, b :: bs => a == b && hasPrefixL as bs

/-- Contiguous-sublist test on character lists. -/
def hasInfixL (pat : List Char) : List Char → Bool
  | [] => hasPrefixL pat []
  | c :: rest => hasPrefixL pat (c :: rest) || hasInfixL pat rest

/-- JavaScript `haystack.includes(needle)`. -/
def containsSub (s pat : String) : Bool :=
  hasInfixL pat.toList s.toList

/-! ## The outbound gateway call (`sendToSlybroadcast`) -/

/-- Outcome of the outbound `fetch` to the broadcast gateway: the transport
either fails (`fetch` rejects) or yields a free-text response body. -/
inductive GatewayOutcome where
  | transportFailure
  | response (text : String)
deriving DecidableEq, Repr

/-- The check `result.includes('SENT OK') || result.includes('SUCCESS')`: the
substring test that decides gateway success. -/
def slybroadcastSucceeds (result : String) : Bool :=
  containsSub result "SENT OK" || containsSub result "SUCCESS"

/-- The function `sendToSlybroadcast`, abstracted over the network outcome: on a
response containing a success marker it returns the raw text, otherwise it
throws (`.error`), as does a transport failure. -/
def sendToSlybroadcast (gw : GatewayOutcome) : Except String String :=
  match gw with
  | .transportFailure => .error "fetch failed"
  | .response r =>
      if slybroadcastSucceeds r then .ok r
      else .error ("Slybroadcast API Error: " ++ r)

/-! ## The campaign submission handler (`POST /api/campaigns`) -/

/-- The JSON request body `{senderId, receiverNumbers, audioFile,
audioFileType}`; `none` models an absent field. -/
structure CampaignRequest where
  senderId : Option String
  receiverNumbers : Option (List String)
  audioFile : Option String
  audioFileType : Option String
deriving Repr

/-- Result sent back to the HTTP caller by the campaign handler. -/
inductive CampaignResult where
  | errResp (status : Nat) (msg : String)
  | created (campaignId : String)
deriving DecidableEq, Repr

/-- The campaign row as the handler inserts it:
`INSERT INTO campaigns (...) VALUES (..., 'pending', recipientCount)` with
`credits_used = recipient_count`, and the table defaults `progress = 0`,
`slybroadcast_response = NULL`. -/
def mkCampaignRow (cid : String) (uid : Nat) (sid : String) (cnt : Nat)
    (af aft : String) : Campaign :=
  { id := cid, userId := uid, senderId := sid, recipientCount := cnt,
    audioFileUrl := af, audioFileType := aft, status := .pending,
    progress := 0, slybroadcastResponse := none, creditsUsed := cnt }

/-- The balance check `userCredits < recipientCount` (negated): true when
the submission is allowed to proceed. -/
def creditCheck (credits : Int) (cnt : Nat) : Bool :=
  !(credits < (cnt : Int))

/-- The synchronous part of the handler up to and including the three
mutations: field-presence check, phone validation, user lookup, balance
check, then campaign insert (in `pending` status), bulk recipient insert
and credit debit.  On success it returns the mutated state, the generated
campaign id `'RD' + Date.now()` and the recipient count.  The bulk insert
is modelled as appending the mapped rows, which is exact for a nonempty
`receiverNumbers` array; the mysql2 placeholder expansion of an empty
array (invalid SQL, which throws) is modelled by `bulkInsertRecipients`
inside `createCampaignSteps`, and the two handler models agree on every
nonempty array (`createCampaignSteps_eq_of_ne_nil`). -/
def submitInsertPhase (st : DBState) (userId : Nat) (req : CampaignRequest)
    (now : Nat) : Except (Nat × String) (DBState × String × Nat) :=
  if !(truthyStr req.senderId && truthyList req.receiverNumbers
      && truthyStr req.audioFile && truthyStr req.audioFileType) then
    .error (400, "All fields are required")
  else
    let numbers := req.receiverNumbers.getD []
    match firstInvalidNumber numbers with
    | some n => .error (400, "Invalid phone number: " ++ n)
    | none =>
        match findUserById st.users userId with
        | none => .error (404, "User not found")
        | some u =>
            let recipientCount := numbers.length
            if creditCheck u.credits recipientCount then
              let campaignId := "RD" ++ toString now
              let st1 : DBState :=
                { st with
                  campaigns := st.campaigns ++
                    [mkCampaignRow campaignId userId (req.senderId.getD "")
                      recipientCount (req.audioFile.getD "")
                      (req.audioFileType.getD "")],
                  recipients := st.recipients ++ numbers.map
                    (fun n => { campaignId := campaignId,
                                phoneNumber := jsTrim n }),
                  users := debitCredits st.users userId recipientCount }
              .ok (st1, campaignId, recipientCount)
            else
              .error (400, "Insufficient credits. Required: "
                ++ toString recipientCount ++ ", Available: "
                ++ toString u.credits)

/-- The update `UPDATE campaigns SET status = 'running', slybroadcast_response = ?
WHERE id = ?`.  (The stored text is `JSON.stringify` of an object holding
the raw gateway response; the JSON envelope is elided and the raw response
text kept.) -/
def setCampaignRunning (l : List Campaign) (cid : String) (resp : String) :
    List Campaign :=
  l.map fun c =>
    if c.id == cid then { c with status := .running,
                                 slybroadcastResponse := some resp }
    else c

/-- The full `POST /api/campaigns` handler.  After the insert phase it
awaits the gateway call: on gateway success it marks the campaign
`running` and responds `201`; when the gateway call throws, the `catch`
block responds `500` — without undoing any of the already-committed
mutations. -/
def createCampaign (st : DBState) (userId : Nat) (req : CampaignRequest)
    (now : Nat) (gw : GatewayOutcome) : DBState × CampaignResult :=
  match submitInsertPhase st userId req now with
  | .error (code, msg) => (st, .errResp code msg)
  | .ok (st1, cid, _) =>
      match sendToSlybroadcast gw with
      | .error _ => (st1, .errResp 500 "Failed to create campaign")
      | .ok r =>
          ({ st1 with campaigns := setCampaignRunning st1.campaigns cid r },
           .created cid)

/-- The bulk statement `INSERT INTO campaign_recipients (campaign_id,
phone_number) VALUES ?` as mysql2 expands its placeholder: a nonempty
array becomes one `(campaign_id, phone_number)` tuple per entry (numbers
stored trimmed); the empty array expands to the empty string, leaving the
invalid SQL `... VALUES ` — MySQL raises a parse error and the call
throws. -/
def bulkInsertRecipients (cid : String) (numbers : List String) :
    Except String (List Recipient) :=
  match numbers with
  | [] => Except.error "You have an error in your SQL syntax"
  | _ :: _ =>
      Except.ok (numbers.map fun n =>
        { campaignId := cid, phoneNumber := jsTrim n })

/-- The campaign handler with each database statement of the success path
modelled as its own awaited step, refining `createCampaign` by the mysql2
expansion of the bulk recipient insert (`bulkInsertRecipients`): on an
empty `receiverNumbers` array that statement throws between the campaign
insert and the credit debit, and the `catch` answers 500 with the campaign
row already committed and the debit never reached.  On a nonempty array it
agrees with `createCampaign` (`createCampaignSteps_eq_of_ne_nil`). -/
def createCampaignSteps (st : DBState) (userId : Nat) (req : CampaignRequest)
    (now : Nat) (gw : GatewayOutcome) : DBState × CampaignResult :=
  if !(truthyStr req.senderId && truthyList req.receiverNumbers
      && truthyStr req.audioFile && truthyStr req.audioFileType) then
    (st, .errResp 400 "All fields are required")
  else
    let numbers := req.receiverNumbers.getD []
    match firstInvalidNumber numbers with
    | some n => (st, .errResp 400 ("Invalid phone number: " ++ n))
    | none =>
        match findUserById st.users userId with
        | none => (st, .errResp 404 "User not found")
        | some u =>
            if creditCheck u.credits numbers.length then
              let campaignId := "RD" ++ toString now
              let stC : DBState :=
                { st with campaigns := st.campaigns ++
                    [mkCampaignRow campaignId userId (req.senderId.getD "")
                      numbers.length (req.audioFile.getD "")
                      (req.audioFileType.getD "")] }
              match bulkInsertRecipients campaignId numbers with
              | .error _ => (stC, .errResp 500 "Failed to create campaign")
              | .ok rows =>
                  let stR : DBState :=
                    { stC with recipients := stC.recipients ++ rows }
                  let stD : DBState :=
                    { stR with
                      users := debitCredits stR.users userId numbers.length }
                  match sendToSlybroadcast gw with
                  | .error _ =>
                      (stD, .errResp 500 "Failed to create campaign")
                  | .ok r =>
                      ({ stD with campaigns :=
                          setCampaignRunning stD.campaigns campaignId r },
                       .created campaignId)
            else
              (st, .errResp 400 ("Insufficient credits. Required: "
                ++ toString numbers.length ++ ", Available: "
                ++ toString u.credits))

/-! ## The read-check-then-write interleaving on the credit balance

The handler reads the balance (`SELECT credits ...`), checks it, and only
later writes the unconditional decrement (`UPDATE users SET credits =
credits - ? ...`).  Two concurrent submissions can both read before either
writes; `raceTrace` is that interleaving, built from the same primitives
the handler uses. -/

/-- Two submissions of `c1` and `c2` recipients by user `uid`, interleaved
as: A reads the balance, B reads the balance, A checks its stale read and
commits its debit, B checks its stale read and commits its debit. -/
def raceTrace (st : DBState) (uid : Nat) (c1 c2 : Nat) : DBState :=
  let r1 := (findUserById st.users uid).map User.credits
  let r2 := (findUserById st.users uid).map User.credits
  let stA :=
    if (r1.map (fun c => creditCheck c c1)).getD false then
      { st with users := debitCredits st.users uid c1 }
    else st
  if (r2.map (fun c => creditCheck c c2)).getD false then
    { stA with users := debitCredits stA.users uid c2 }
  else stA

/-! ## Registration and login (`POST /api/auth/register`, `/login`) -/

/-- The JWT payload `{ id, email, isAdmin }` signed into the bearer token
(`jwt.sign`; the signature itself is the external library). -/
structure TokenPayload where
  id : Nat
  email : String
  isAdmin : Bool
deriving DecidableEq, Repr

/-- The JSON request body of `POST /api/auth/register`. -/
structure RegisterRequest where
  name : Option String
  email : Option String
  password : Option String
deriving Repr

/-- Body of a registration response: an error message, or the created
user's public fields plus the token. -/
inductive RegisterBody where
  | err (msg : String)
  | ok (id : Nat) (name email : String) (credits : Int) (isAdmin : Bool)
      (token : TokenPayload)
deriving DecidableEq, Repr

/-- The `POST /api/auth/register` handler.  `hash` is `bcrypt.hash` (an
external library, passed as a parameter).  Field check, duplicate-email
check (`SELECT id FROM users WHERE email = ?`, then `length > 0`), then
`INSERT INTO users (name, email, password_hash, credits) VALUES (?,?,?,100)`
— `is_admin` is not set and takes the table default `FALSE`.  Returns the
HTTP status and body. -/
def register (st : DBState) (req : RegisterRequest)
    (hash : String → String) : DBState × Nat × RegisterBody :=
  if !(truthyStr req.name && truthyStr req.email
      && truthyStr req.password) then
    (st, 400, .err "All fields are required")
  else
    let email := req.email.getD ""
    if (st.users.filter (fun u => u.email == email)).length > 0 then
      (st, 400, .err "Email already registered")
    else
      let name := req.name.getD ""
      let password := req.password.getD ""
      let passwordHash := hash password
      let uid := st.nextUserId
      let newUser : User :=
        { id := uid, name := name, email := email,
          passwordHash := passwordHash, credits := 100, isAdmin := false }
      ({ st with users := st.users ++ [newUser], nextUserId := uid + 1 },
       201,
       .ok uid name email 100 false
         { id := uid, email := email, isAdmin := false })

/-- Body of a login response. -/
inductive LoginBody where
  | err (msg : String)
  | ok (id : Nat) (name email : String) (credits : Int) (isAdmin : Bool)
      (token : TokenPayload)
deriving DecidableEq, Repr

/-- The `POST /api/auth/login` handler.  `verify` is `bcrypt.compare`
(plaintext then stored hash), an external library passed as a parameter.
Missing email-row lookup and hash mismatch both answer
`401 'Invalid credentials'`. -/
def login (st : DBState) (email? password? : Option String)
    (verify : String → String → Bool) : Nat × LoginBody :=
  if !(truthyStr email? && truthyStr password?) then
    (400, .err "Email and password required")
  else
    match st.users.find? (fun u => u.email == email?.getD "") with
    | none => (401, .err "Invalid credentials")
    | some u =>
        if !(verify (password?.getD "") u.passwordHash) then
          (401, .err "Invalid credentials")
        else
          (200, .ok u.id u.name u.email u.credits u.isAdmin
            { id := u.id, email := u.email, isAdmin := u.isAdmin })

/-! ## The progress timer (`simulateCampaignProgress`)

`setInterval(..., 5000)` keeps a local accumulator starting at 0; each tick
adds `Math.random() * 15` (a value in `[0, 15)`, modelled as a rational
supplied by a sequence `f`), and either completes the campaign (clamping
the stored progress to 100 and clearing the interval) or stores
`Math.round(progress)`. -/

/-- The fixed timer period, in milliseconds: `setInterval(..., 5000)`. -/
def tickIntervalMs : Nat := 5000

/-- JavaScript `Math.round` on a nonnegative value: half-up rounding. -/
def jsRound (q : ℚ) : Int :=
  ⌊q + 1 / 2⌋

/-- In-memory and database state the timer touches for one campaign:
the local `progress` accumulator, the stored `progress` column, the stored
`status` column, and whether the interval is still registered. -/
structure SimState where
  progress : ℚ
  stored : Int
  status : CampaignStatus
  active : Bool
deriving DecidableEq, Repr

/-- State when the timer starts: local accumulator 0, row `progress` 0
(table default), row status `running` (set just before the timer starts). -/
def simInit : SimState :=
  { progress := 0, stored := 0, status := .running, active := true }

/-- One timer callback with increment `inc`: add to the accumulator; at
`>= 100` clear the interval and store `status = 'completed', progress =
100`; otherwise store `Math.round(progress)`.  A cleared interval never
fires again. -/
def simTick (inc : ℚ) (s : SimState) : SimState :=
  if s.active then
    let p := s.progress + inc
    if 100 ≤ p then
      { progress := p, stored := 100, status := .completed, active := false }
    else
      { progress := p, stored := jsRound p, status := s.status,
        active := true }
  else s

/-- The state after `n` timer periods, the increment of period `i` being
`f i`. -/
def simRun (f : Nat → ℚ) : Nat → SimState
  | 0 => simInit
  | n + 1 => simTick (f n) (simRun f n)

/-! ## Helper lemmas -/

/-- Reading a user back after the debit update: the looked-up row is the
old row with `credits` decremented. -/
theorem findUserById_debitCredits (l : List User) (uid : Nat) (n : Int) :
    findUserById (debitCredits l uid n) uid
      = (findUserById l uid).map fun u => { u with credits := u.credits - n } := by
  induction l with
  | nil => rfl
  | cons a l ih =>
      by_cases h : a.id = uid
      · simp [findUserById, debitCredits, List.find?, h]
      · have hb : (a.id == uid) = false := by simp [h]
        simp [findUserById, debitCredits, List.find?, hb] at ih ⊢
        exact ih

/-- When all four fields are present, every number passes the pattern, the
caller resolves to a user and the balance covers the recipient count, the
insert phase commits exactly the three mutations and reports the generated
campaign id and recipient count. -/
theorem submitInsertPhase_eq_ok
    (st : DBState) (userId now : Nat) (req : CampaignRequest)
    (numbers : List String) (u : User)
    (hnum : req.receiverNumbers = some numbers)
    (hsid : truthyStr req.senderId = true)
    (haf : truthyStr req.audioFile = true)
    (haft : truthyStr req.audioFileType = true)
    (hval : firstInvalidNumber numbers = none)
    (huser : findUserById st.users userId = some u)
    (hbal : (numbers.length : Int) ≤ u.credits) :
    submitInsertPhase st userId req now = Except.ok
      ({ st with
          campaigns := st.campaigns ++
            [mkCampaignRow ("RD" ++ toString now) userId (req.senderId.getD "")
              numbers.length (req.audioFile.getD "") (req.audioFileType.getD "")],
          recipients := st.recipients ++ numbers.map
            (fun n => { campaignId := "RD" ++ toString now,
                        phoneNumber := jsTrim n }),
          users := debitCredits st.users userId (numbers.length : Int) },
        "RD" ++ toString now, numbers.length) := by
  have hcheck : creditCheck u.credits numbers.length = true := by
    simp only [creditCheck, Bool.not_eq_true', decide_eq_false_iff_not]
    exact not_lt.mpr hbal
  unfold submitInsertPhase
  rw [hnum]
  simp [truthyList, hsid, haf, haft, hval, huser, hcheck]

/-! ## Claim theorems -/

/-- C1: every campaign submission that succeeds (all four fields present,
every receiver number matching the 10-15-digit pattern, caller found,
balance at least the recipient count) inserts exactly one campaign row —
in `pending` status with `credits_used = recipient_count` — inserts one
recipient row per submitted number, and leaves the caller's balance equal
to the pre-submission balance minus the recipient count, whatever the
gateway then does. -/
theorem claim1_successful_submission_commits
    (st : DBState) (userId now : Nat) (req : CampaignRequest)
    (numbers : List String) (u : User)
    (hnum : req.receiverNumbers = some numbers)
    (hsid : truthyStr req.senderId = true)
    (haf : truthyStr req.audioFile = true)
    (haft : truthyStr req.audioFileType = true)
    (hval : firstInvalidNumber numbers = none)
    (huser : findUserById st.users userId = some u)
    (hbal : (numbers.length : Int) ≤ u.credits) :
    ∃ st1,
      submitInsertPhase st userId req now
        = Except.ok (st1, "RD" ++ toString now, numbers.length)
      ∧ st1.campaigns = st.campaigns ++
          [mkCampaignRow ("RD" ++ toString now) userId (req.senderId.getD "")
            numbers.length (req.audioFile.getD "") (req.audioFileType.getD "")]
      ∧ (mkCampaignRow ("RD" ++ toString now) userId (req.senderId.getD "")
          numbers.length (req.audioFile.getD "")
          (req.audioFileType.getD "")).status = CampaignStatus.pending
      ∧ (mkCampaignRow ("RD" ++ toString now) userId (req.senderId.getD "")
          numbers.length (req.audioFile.getD "")
          (req.audioFileType.getD "")).creditsUsed = numbers.length
      ∧ st1.recipients = st.recipients ++ numbers.map
          (fun n => { campaignId := "RD" ++ toString now,
                      phoneNumber := jsTrim n })
      ∧ creditsOf st1 userId = some (u.credits - numbers.length)
      ∧ ∀ gw, creditsOf (createCampaign st userId req now gw).1 userId
              = some (u.credits - numbers.length)
          ∧ (createCampaign st userId req now gw).1.campaigns.length
              = st.campaigns.length + 1 := by
  have hins := submitInsertPhase_eq_ok st userId now req numbers u hnum hsid
    haf haft hval huser hbal
  refine ⟨_, hins, rfl, rfl, rfl, rfl, ?_, ?_⟩
  · simp [creditsOf, findUserById_debitCredits, huser]
  · intro gw
    unfold createCampaign
    rw [hins]
    cases hgw : sendToSlybroadcast gw with
    | error e =>
        constructor
        · simp [creditsOf, findUserById_debitCredits, huser]
        · simp
    | ok r =>
        constructor
        · simp [creditsOf, setCampaignRunning, findUserById_debitCredits, huser]
        · simp [setCampaignRunning]

/-- Witness for C1: a concrete one-user state and a two-recipient
submission. -/
theorem claim1_witness :
    ∃ st1,
      submitInsertPhase
        { users := [{ id := 1, name := "alice", email := "alice@example.com",
                      passwordHash := "hash", credits := 100,
                      isAdmin := false }],
          nextUserId := 2, campaigns := [], recipients := [] } 1
        { senderId := some "15551234567",
          receiverNumbers := some ["1234567890", "0987654321"],
          audioFile := some "http://cdn/f.mp3", audioFileType := some "mp3" }
        42
        = Except.ok (st1, "RD42", 2)
      ∧ st1.campaigns =
          [mkCampaignRow "RD42" 1 "15551234567" 2 "http://cdn/f.mp3" "mp3"]
      ∧ (mkCampaignRow "RD42" 1 "15551234567" 2 "http://cdn/f.mp3"
          "mp3").status = CampaignStatus.pending
      ∧ (mkCampaignRow "RD42" 1 "15551234567" 2 "http://cdn/f.mp3"
          "mp3").creditsUsed = 2
      ∧ st1.recipients =
          [{ campaignId := "RD42", phoneNumber := "1234567890" },
           { campaignId := "RD42", phoneNumber := "0987654321" }]
      ∧ creditsOf st1 1 = some 98
      ∧ ∀ gw,
          creditsOf
            (createCampaign
              { users := [{ id := 1, name := "alice",
                            email := "alice@example.com",
                            passwordHash := "hash", credits := 100,
                            isAdmin := false }],
                nextUserId := 2, campaigns := [], recipients := [] } 1
              { senderId := some "15551234567",
                receiverNumbers := some ["1234567890", "0987654321"],
                audioFile := some "http://cdn/f.mp3",
                audioFileType := some "mp3" } 42 gw).1 1 = some 98
          ∧ (createCampaign
              { users := [{ id := 1, name := "alice",
                            email := "alice@example.com",
                            passwordHash := "hash", credits := 100,
                            isAdmin := false }],
                nextUserId := 2, campaigns := [], recipients := [] } 1
              { senderId := some "15551234567",
                receiverNumbers := some ["1234567890", "0987654321"],
                audioFile := some "http://cdn/f.mp3",
                audioFileType := some "mp3" } 42 gw).1.campaigns.length
            = 0 + 1 := by
  exact claim1_successful_submission_commits
    { users := [{ id := 1, name := "alice", email := "alice@example.com",
                  passwordHash := "hash", credits := 100, isAdmin := false }],
      nextUserId := 2, campaigns := [], recipients := [] }
    1 42
    { senderId := some "15551234567",
      receiverNumbers := some ["1234567890", "0987654321"],
      audioFile := some "http://cdn/f.mp3", audioFileType := some "mp3" }
    ["1234567890", "0987654321"]
    { id := 1, name := "alice", email := "alice@example.com",
      passwordHash := "hash", credits := 100, isAdmin := false }
    rfl (by decide) (by decide) (by decide) (by decide) rfl (by decide)

/-- C3: a submission (all four fields present) containing a receiver
number that fails the 10-15-digit pattern is rejected whole with
`400` naming the first invalid number, and the state — campaigns,
recipients and the caller's balance — is returned untouched, whatever the
gateway would have answered. -/
theorem claim3_invalid_phone_rejects_without_mutation
    (st : DBState) (userId now : Nat) (req : CampaignRequest)
    (numbers : List String) (n : String) (gw : GatewayOutcome)
    (hnum : req.receiverNumbers = some numbers)
    (hsid : truthyStr req.senderId = true)
    (haf : truthyStr req.audioFile = true)
    (haft : truthyStr req.audioFileType = true)
    (hval : firstInvalidNumber numbers = some n) :
    createCampaign st userId req now gw
      = (st, CampaignResult.errResp 400 ("Invalid phone number: " ++ n)) := by
  have hins : submitInsertPhase st userId req now
      = Except.error (400, "Invalid phone number: " ++ n) := by
    unfold submitInsertPhase
    rw [hnum]
    simp [truthyList, hsid, haf, haft, hval]
  unfold createCampaign
  rw [hins]

/-- Witness for C3: the second number is too short, the submission is
rejected naming it, and the state comes back unchanged. -/
theorem claim3_witness :
    createCampaign
      { users := [{ id := 1, name := "alice", email := "alice@example.com",
                    passwordHash := "hash", credits := 100,
                    isAdmin := false }],
        nextUserId := 2, campaigns := [], recipients := [] } 1
      { senderId := some "15551234567",
        receiverNumbers := some ["1234567890", "12345"],
        audioFile := some "http://cdn/f.mp3", audioFileType := some "mp3" }
      42 (GatewayOutcome.response "SENT OK")
      = ({ users := [{ id := 1, name := "alice",
                       email := "alice@example.com", passwordHash := "hash",
                       credits := 100, isAdmin := false }],
           nextUserId := 2, campaigns := [], recipients := [] },
         CampaignResult.errResp 400 ("Invalid phone number: " ++ "12345")) := by
  exact claim3_invalid_phone_rejects_without_mutation
    { users := [{ id := 1, name := "alice", email := "alice@example.com",
                  passwordHash := "hash", credits := 100, isAdmin := false }],
      nextUserId := 2, campaigns := [], recipients := [] }
    1 42
    { senderId := some "15551234567",
      receiverNumbers := some ["1234567890", "12345"],
      audioFile := some "http://cdn/f.mp3", audioFileType := some "mp3" }
    ["1234567890", "12345"] "12345" (GatewayOutcome.response "SENT OK")
    rfl (by decide) (by decide) (by decide) (by decide)

/-- C4: a submission whose recipient count strictly exceeds the caller's
balance fails with `400` quoting the required and available amounts, the
state — in particular the balance — is returned untouched, and no
campaign row is created, whatever the gateway would have answered. -/
theorem claim4_insufficient_credits_rejects
    (st : DBState) (userId now : Nat) (req : CampaignRequest)
    (numbers : List String) (u : User) (gw : GatewayOutcome)
    (hnum : req.receiverNumbers = some numbers)
    (hsid : truthyStr req.senderId = true)
    (haf : truthyStr req.audioFile = true)
    (haft : truthyStr req.audioFileType = true)
    (hval : firstInvalidNumber numbers = none)
    (huser : findUserById st.users userId = some u)
    (hbal : u.credits < (numbers.length : Int)) :
    createCampaign st userId req now gw
      = (st, CampaignResult.errResp 400
          ("Insufficient credits. Required: " ++ toString numbers.length
            ++ ", Available: " ++ toString u.credits)) := by
  have hcheck : creditCheck u.credits numbers.length = false := by
    simp only [creditCheck, Bool.not_eq_false']
    exact decide_eq_true hbal
  have hins : submitInsertPhase st userId req now
      = Except.error (400,
          "Insufficient credits. Required: " ++ toString numbers.length
            ++ ", Available: " ++ toString u.credits) := by
    unfold submitInsertPhase
    rw [hnum]
    simp [truthyList, hsid, haf, haft, hval, huser, hcheck]
  unfold createCampaign
  rw [hins]

/-- Witness for C4: a balance of 2 against a three-recipient submission is
rejected and the state comes back unchanged. -/
theorem claim4_witness :
    createCampaign
      { users := [{ id := 1, name := "alice", email := "alice@example.com",
                    passwordHash := "hash", credits := 2,
                    isAdmin := false }],
        nextUserId := 2, campaigns := [], recipients := [] } 1
      { senderId := some "15551234567",
        receiverNumbers := some ["1234567890", "2234567890", "3234567890"],
        audioFile := some "http://cdn/f.mp3", audioFileType := some "mp3" }
      42 (GatewayOutcome.response "SENT OK")
      = ({ users := [{ id := 1, name := "alice",
                       email := "alice@example.com", passwordHash := "hash",
                       credits := 2, isAdmin := false }],
           nextUserId := 2, campaigns := [], recipients := [] },
         CampaignResult.errResp 400
           ("Insufficient credits. Required: "
             ++ toString ([ "1234567890", "2234567890", "3234567890"
               ] : List String).length
             ++ ", Available: " ++ toString (2 : Int))) := by
  exact claim4_insufficient_credits_rejects
    { users := [{ id := 1, name := "alice", email := "alice@example.com",
                  passwordHash := "hash", credits := 2, isAdmin := false }],
      nextUserId := 2, campaigns := [], recipients := [] }
    1 42
    { senderId := some "15551234567",
      receiverNumbers := some ["1234567890", "2234567890", "3234567890"],
      audioFile := some "http://cdn/f.mp3", audioFileType := some "mp3" }
    ["1234567890", "2234567890", "3234567890"]
    { id := 1, name := "alice", email := "alice@example.com",
      passwordHash := "hash", credits := 2, isAdmin := false }
    (GatewayOutcome.response "SENT OK")
    rfl (by decide) (by decide) (by decide) (by decide) rfl (by decide)

/-- C5: when the gateway call fails (response without a success marker, or
transport failure) after the campaign insert and the credit debit, the
handler answers `500` and nothing is compensated: the balance stays
decremented by the recipient count, and the inserted campaign row (still
`pending`) and recipient rows remain. -/
theorem claim5_gateway_failure_keeps_debit
    (st : DBState) (userId now : Nat) (req : CampaignRequest)
    (numbers : List String) (u : User) (gw : GatewayOutcome) (e : String)
    (hnum : req.receiverNumbers = some numbers)
    (hsid : truthyStr req.senderId = true)
    (haf : truthyStr req.audioFile = true)
    (haft : truthyStr req.audioFileType = true)
    (hval : firstInvalidNumber numbers = none)
    (huser : findUserById st.users userId = some u)
    (hbal : (numbers.length : Int) ≤ u.credits)
    (hgw : sendToSlybroadcast gw = Except.error e) :
    ∃ st1,
      createCampaign st userId req now gw
        = (st1, CampaignResult.errResp 500 "Failed to create campaign")
      ∧ creditsOf st1 userId = some (u.credits - numbers.length)
      ∧ st1.campaigns = st.campaigns ++
          [mkCampaignRow ("RD" ++ toString now) userId (req.senderId.getD "")
            numbers.length (req.audioFile.getD "") (req.audioFileType.getD "")]
      ∧ (mkCampaignRow ("RD" ++ toString now) userId (req.senderId.getD "")
          numbers.length (req.audioFile.getD "")
          (req.audioFileType.getD "")).status = CampaignStatus.pending
      ∧ st1.recipients = st.recipients ++ numbers.map
          (fun n => { campaignId := "RD" ++ toString now,
                      phoneNumber := jsTrim n }) := by
  have hins := submitInsertPhase_eq_ok st userId now req numbers u hnum hsid
    haf haft hval huser hbal
  have hcc : createCampaign st userId req now gw
      = ({ st with
            campaigns := st.campaigns ++
              [mkCampaignRow ("RD" ++ toString now) userId
                (req.senderId.getD "") numbers.length (req.audioFile.getD "")
                (req.audioFileType.getD "")],
            recipients := st.recipients ++ numbers.map
              (fun n => { campaignId := "RD" ++ toString now,
                          phoneNumber := jsTrim n }),
            users := debitCredits st.users userId (numbers.length : Int) },
          CampaignResult.errResp 500 "Failed to create campaign") := by
    unfold createCampaign
    rw [hins, hgw]
  exact ⟨_, hcc, by simp [creditsOf, findUserById_debitCredits, huser],
    rfl, rfl, rfl⟩

/-- Witness for C5: the gateway answers without a success marker; the
caller stays debited and the pending rows stay in place. -/
theorem claim5_witness :
    ∃ st1,
      createCampaign
        { users := [{ id := 1, name := "alice", email := "alice@example.com",
                      passwordHash := "hash", credits := 100,
                      isAdmin := false }],
          nextUserId := 2, campaigns := [], recipients := [] } 1
        { senderId := some "15551234567",
          receiverNumbers := some ["1234567890", "0987654321"],
          audioFile := some "http://cdn/f.mp3", audioFileType := some "mp3" }
        42 (GatewayOutcome.response "ERROR bad audio")
        = (st1, CampaignResult.errResp 500 "Failed to create campaign")
      ∧ creditsOf st1 1 = some 98
      ∧ st1.campaigns =
          [mkCampaignRow "RD42" 1 "15551234567" 2 "http://cdn/f.mp3" "mp3"]
      ∧ (mkCampaignRow "RD42" 1 "15551234567" 2 "http://cdn/f.mp3"
          "mp3").status = CampaignStatus.pending
      ∧ st1.recipients =
          [{ campaignId := "RD42", phoneNumber := "1234567890" },
           { campaignId := "RD42", phoneNumber := "0987654321" }] := by
  exact claim5_gateway_failure_keeps_debit
    { users := [{ id := 1, name := "alice", email := "alice@example.com",
                  passwordHash := "hash", credits := 100, isAdmin := false }],
      nextUserId := 2, campaigns := [], recipients := [] }
    1 42
    { senderId := some "15551234567",
      receiverNumbers := some ["1234567890", "0987654321"],
      audioFile := some "http://cdn/f.mp3", audioFileType := some "mp3" }
    ["1234567890", "0987654321"]
    { id := 1, name := "alice", email := "alice@example.com",
      passwordHash := "hash", credits := 100, isAdmin := false }
    (GatewayOutcome.response "ERROR bad audio")
    ("Slybroadcast API Error: " ++ "ERROR bad audio")
    rfl (by decide) (by decide) (by decide) (by decide) rfl (by decide)
    rfl

/-- C2 (the race the spec flags): the handler reads the balance, checks it
against the recipient count, and later writes an unconditional decrement.
With one user holding a single credit, two interleaved single-recipient
submissions both pass the stale check and both commit their debit:
the balance lands at -1, negative, and the two successful debits add up to
2 against an original balance of 1. -/
theorem claim2_race_drives_balance_negative :
    creditsOf
      (raceTrace
        { users := [{ id := 1, name := "alice", email := "alice@example.com",
                      passwordHash := "hash", credits := 1,
                      isAdmin := false }],
          nextUserId := 2, campaigns := [], recipients := [] } 1 1 1) 1
      = some (-1)
    ∧ creditCheck 1 1 = true := by
  constructor
  · decide
  · decide

/-- C7: registering with a fresh email and all three fields present
creates exactly one user with balance 100 and `isAdmin = false`, stores
the bcrypt image of the password (not the plaintext), and answers `201`
with the public fields and the token payload `{id, email, isAdmin:false}`. -/
theorem claim7_register_fresh_email
    (st : DBState) (req : RegisterRequest) (hash : String → String)
    (name email password : String)
    (hn : req.name = some name) (he : req.email = some email)
    (hp : req.password = some password)
    (hne : name.isEmpty = false) (hee : email.isEmpty = false)
    (hpe : password.isEmpty = false)
    (hfresh : st.users.filter (fun u => u.email == email) = [])
    (hhash : hash password ≠ password) :
    register st req hash
      = ({ st with
            users := st.users ++
              [{ id := st.nextUserId, name := name, email := email,
                 passwordHash := hash password, credits := 100,
                 isAdmin := false }],
            nextUserId := st.nextUserId + 1 },
         201,
         RegisterBody.ok st.nextUserId name email 100 false
           { id := st.nextUserId, email := email, isAdmin := false })
    ∧ ({ id := st.nextUserId, name := name, email := email,
         passwordHash := hash password, credits := 100,
         isAdmin := false } : User).passwordHash ≠ password := by
  constructor
  · unfold register
    rw [hn, he, hp]
    simp [truthyStr, hne, hee, hpe, hfresh]
  · exact hhash

/-- Witness for C7: registering bob on a one-user state. -/
theorem claim7_witness :
    register
      { users := [{ id := 1, name := "alice", email := "alice@example.com",
                    passwordHash := "hash", credits := 100,
                    isAdmin := false }],
        nextUserId := 2, campaigns := [], recipients := [] }
      { name := some "bob", email := some "bob@example.com",
        password := some "pw123" }
      (fun s => "bcrypt." ++ s)
      = ({ users := [{ id := 1, name := "alice",
                       email := "alice@example.com", passwordHash := "hash",
                       credits := 100, isAdmin := false },
                     { id := 2, name := "bob", email := "bob@example.com",
                       passwordHash := "bcrypt." ++ "pw123", credits := 100,
                       isAdmin := false }],
           nextUserId := 3, campaigns := [], recipients := [] },
         201,
         RegisterBody.ok 2 "bob" "bob@example.com" 100 false
           { id := 2, email := "bob@example.com", isAdmin := false })
    ∧ ({ id := 2, name := "bob", email := "bob@example.com",
         passwordHash := "bcrypt." ++ "pw123", credits := 100,
         isAdmin := false } : User).passwordHash ≠ "pw123" := by
  exact claim7_register_fresh_email
    { users := [{ id := 1, name := "alice", email := "alice@example.com",
                  passwordHash := "hash", credits := 100, isAdmin := false }],
      nextUserId := 2, campaigns := [], recipients := [] }
    { name := some "bob", email := some "bob@example.com",
      password := some "pw123" }
    (fun s => "bcrypt." ++ s) "bob" "bob@example.com" "pw123"
    rfl rfl rfl rfl rfl rfl (by decide) (by decide)

/-- C8: registering with an email that is already present in the user
table (fields present) always answers with the duplicate-email rejection —
the spec's `Conflict` taxon, transported as HTTP 400 per its API table —
and leaves the state untouched: no new user row. -/
theorem claim8_duplicate_email_conflict
    (st : DBState) (req : RegisterRequest) (hash : String → String)
    (name email password : String) (u : User)
    (hn : req.name = some name) (he : req.email = some email)
    (hp : req.password = some password)
    (hne : name.isEmpty = false) (hee : email.isEmpty = false)
    (hpe : password.isEmpty = false)
    (hu : u ∈ st.users) (hue : u.email = email) :
    register st req hash
      = (st, 400, RegisterBody.err "Email already registered") := by
  have hmem : u ∈ st.users.filter (fun v => v.email == email) :=
    List.mem_filter.mpr ⟨hu, by simp [hue]⟩
  have hpos : 0 < (st.users.filter (fun v => v.email == email)).length :=
    List.length_pos.mpr (List.ne_nil_of_mem hmem)
  unfold register
  rw [hn, he, hp]
  simp [truthyStr, hne, hee, hpe, hpos]

/-- Witness for C8: re-registering alice's email is rejected with the
state unchanged. -/
theorem claim8_witness :
    register
      { users := [{ id := 1, name := "alice", email := "alice@example.com",
                    passwordHash := "hash", credits := 100,
                    isAdmin := false }],
        nextUserId := 2, campaigns := [], recipients := [] }
      { name := some "mallory", email := some "alice@example.com",
        password := some "pw456" }
      (fun s => "bcrypt." ++ s)
      = ({ users := [{ id := 1, name := "alice",
                       email := "alice@example.com", passwordHash := "hash",
                       credits := 100, isAdmin := false }],
           nextUserId := 2, campaigns := [], recipients := [] },
         400, RegisterBody.err "Email already registered") := by
  exact claim8_duplicate_email_conflict
    { users := [{ id := 1, name := "alice", email := "alice@example.com",
                  passwordHash := "hash", credits := 100, isAdmin := false }],
      nextUserId := 2, campaigns := [], recipients := [] }
    { name := some "mallory", email := some "alice@example.com",
      password := some "pw456" }
    (fun s => "bcrypt." ++ s) "mallory" "alice@example.com" "pw456"
    { id := 1, name := "alice", email := "alice@example.com",
      passwordHash := "hash", credits := 100, isAdmin := false }
    rfl rfl rfl rfl rfl rfl (by decide) rfl

/-- C9: a login with an email that matches no user and a login with an
existing email but a failing password comparison produce the same status
code 401 and the same generic message, so the two failure causes are
indistinguishable to the caller. -/
theorem claim9_login_failures_indistinguishable
    (st : DBState) (e1 p1 e2 p2 : String)
    (verify : String → String → Bool) (u : User)
    (he1 : e1.isEmpty = false) (hp1 : p1.isEmpty = false)
    (he2 : e2.isEmpty = false) (hp2 : p2.isEmpty = false)
    (hnone : st.users.find? (fun v => v.email == e1) = none)
    (hsome : st.users.find? (fun v => v.email == e2) = some u)
    (hverify : verify p2 u.passwordHash = false) :
    login st (some e1) (some p1) verify
      = (401, LoginBody.err "Invalid credentials")
    ∧ login st (some e2) (some p2) verify
      = (401, LoginBody.err "Invalid credentials")
    ∧ login st (some e1) (some p1) verify
      = login st (some e2) (some p2) verify := by
  have h1 : login st (some e1) (some p1) verify
      = (401, LoginBody.err "Invalid credentials") := by
    unfold login
    simp [truthyStr, he1, hp1, hnone]
  have h2 : login st (some e2) (some p2) verify
      = (401, LoginBody.err "Invalid credentials") := by
    unfold login
    simp [truthyStr, he2, hp2, hsome, hverify]
  exact ⟨h1, h2, h1.trans h2.symm⟩

/-- Witness for C9: unknown email vs wrong password on a concrete
one-user state. -/
theorem claim9_witness :
    login
      { users := [{ id := 1, name := "alice", email := "alice@example.com",
                    passwordHash := "hash", credits := 100,
                    isAdmin := false }],
        nextUserId := 2, campaigns := [], recipients := [] }
      (some "nobody@example.com") (some "whatever") (fun _ _ => false)
      = (401, LoginBody.err "Invalid credentials")
    ∧ login
        { users := [{ id := 1, name := "alice",
                      email := "alice@example.com", passwordHash := "hash",
                      credits := 100, isAdmin := false }],
          nextUserId := 2, campaigns := [], recipients := [] }
        (some "alice@example.com") (some "wrongpw") (fun _ _ => false)
      = (401, LoginBody.err "Invalid credentials")
    ∧ login
        { users := [{ id := 1, name := "alice",
                      email := "alice@example.com", passwordHash := "hash",
                      credits := 100, isAdmin := false }],
          nextUserId := 2, campaigns := [], recipients := [] }
        (some "nobody@example.com") (some "whatever") (fun _ _ => false)
      = login
          { users := [{ id := 1, name := "alice",
                        email := "alice@example.com", passwordHash := "hash",
                        credits := 100, isAdmin := false }],
            nextUserId := 2, campaigns := [], recipients := [] }
          (some "alice@example.com") (some "wrongpw") (fun _ _ => false) := by
  exact claim9_login_failures_indistinguishable
    { users := [{ id := 1, name := "alice", email := "alice@example.com",
                  passwordHash := "hash", credits := 100, isAdmin := false }],
      nextUserId := 2, campaigns := [], recipients := [] }
    "nobody@example.com" "whatever" "alice@example.com" "wrongpw"
    (fun _ _ => false)
    { id := 1, name := "alice", email := "alice@example.com",
      passwordHash := "hash", credits := 100, isAdmin := false }
    rfl rfl rfl rfl (by decide) (by decide) rfl

/-- The step-level handler model and the aggregated one agree on every
submission whose `receiverNumbers` array is nonempty: the mysql2
empty-array expansion is the only point where they differ. -/
theorem createCampaignSteps_eq_of_ne_nil
    (st : DBState) (userId now : Nat) (req : CampaignRequest)
    (gw : GatewayOutcome) (numbers : List String)
    (hnum : req.receiverNumbers = some numbers) (hne : numbers ≠ []) :
    createCampaignSteps st userId req now gw
      = createCampaign st userId req now gw := by
  obtain ⟨n0, ns, rfl⟩ : ∃ n0 ns, numbers = n0 :: ns := by
    cases numbers with
    | nil => exact absurd rfl hne
    | cons a l => exact ⟨a, l, rfl⟩
  unfold createCampaignSteps createCampaign submitInsertPhase
  rw [hnum]
  simp only [Option.getD_some, bulkInsertRecipients]
  cases hb : (truthyStr req.senderId && truthyList (some (n0 :: ns))
      && truthyStr req.audioFile && truthyStr req.audioFileType) with
  | false => simp [hb]
  | true =>
      simp only [hb, Bool.not_true, Bool.false_eq_true, if_false]
      cases hval : firstInvalidNumber (n0 :: ns) with
      | some n => simp [hval]
      | none =>
          simp only [hval]
          cases huser : findUserById st.users userId with
          | none => simp [huser]
          | some u =>
              simp only [huser]
              cases hc : creditCheck u.credits (n0 :: ns).length with
              | false => simp [hc]
              | true => simp [hc]

/-- C10, counterexample to "the handler does not reject the empty-list
submission": with every validation step passing, the bulk recipient insert
of the empty array expands to invalid SQL and throws, so the handler
answers 500 even though the gateway would have succeeded — with the
campaign row already inserted and the balance untouched (the debit is
never reached). -/
theorem claim10_counterexample_empty_list_rejected :
    (createCampaignSteps
      { users := [{ id := 1, name := "alice", email := "alice@example.com",
                    passwordHash := "hash", credits := 5,
                    isAdmin := false }],
        nextUserId := 2, campaigns := [], recipients := [] } 1
      { senderId := some "15551234567", receiverNumbers := some [],
        audioFile := some "http://cdn/f.mp3", audioFileType := some "mp3" }
      42 (GatewayOutcome.response "SENT OK")).2
      = CampaignResult.errResp 500 "Failed to create campaign"
    ∧ creditsOf
        (createCampaignSteps
          { users := [{ id := 1, name := "alice",
                        email := "alice@example.com", passwordHash := "hash",
                        credits := 5, isAdmin := false }],
            nextUserId := 2, campaigns := [], recipients := [] } 1
          { senderId := some "15551234567", receiverNumbers := some [],
            audioFile := some "http://cdn/f.mp3",
            audioFileType := some "mp3" }
          42 (GatewayOutcome.response "SENT OK")).1 1 = some 5
    ∧ (createCampaignSteps
        { users := [{ id := 1, name := "alice", email := "alice@example.com",
                      passwordHash := "hash", credits := 5,
                      isAdmin := false }],
          nextUserId := 2, campaigns := [], recipients := [] } 1
        { senderId := some "15551234567", receiverNumbers := some [],
          audioFile := some "http://cdn/f.mp3", audioFileType := some "mp3" }
        42 (GatewayOutcome.response "SENT OK")).1.campaigns.length = 1 := by
  refine ⟨?_, ?_, ?_⟩ <;> decide

/-- C10 as amended: a submission whose `receiverNumbers` is the empty
array (other fields present, caller found) passes every validation step —
the presence check (an empty array is truthy), the vacuous phone
validation, and the credit check for any balance at least 0 — and the
campaign row with `recipient_count = 0` and `credits_used = 0` is
inserted; but the bulk recipient insert of the empty array expands to
invalid SQL and throws, so the handler answers 500 with the campaign row
left in place, no recipient rows, and zero credits debited (the debit
statement is never reached). -/
theorem claim10_empty_recipient_list_amended
    (st : DBState) (userId now : Nat) (req : CampaignRequest) (u : User)
    (gw : GatewayOutcome)
    (hnum : req.receiverNumbers = some [])
    (hsid : truthyStr req.senderId = true)
    (haf : truthyStr req.audioFile = true)
    (haft : truthyStr req.audioFileType = true)
    (huser : findUserById st.users userId = some u)
    (hbal : 0 ≤ u.credits) :
    createCampaignSteps st userId req now gw
      = ({ st with campaigns := st.campaigns ++
            [mkCampaignRow ("RD" ++ toString now) userId
              (req.senderId.getD "") 0 (req.audioFile.getD "")
              (req.audioFileType.getD "")] },
         CampaignResult.errResp 500 "Failed to create campaign")
    ∧ (mkCampaignRow ("RD" ++ toString now) userId (req.senderId.getD "") 0
        (req.audioFile.getD "") (req.audioFileType.getD "")).recipientCount
        = 0
    ∧ (mkCampaignRow ("RD" ++ toString now) userId (req.senderId.getD "") 0
        (req.audioFile.getD "") (req.audioFileType.getD "")).creditsUsed = 0
    ∧ ({ st with campaigns := st.campaigns ++
          [mkCampaignRow ("RD" ++ toString now) userId (req.senderId.getD "")
            0 (req.audioFile.getD "")
            (req.audioFileType.getD "")] } : DBState).recipients
        = st.recipients
    ∧ creditsOf
        { st with campaigns := st.campaigns ++
            [mkCampaignRow ("RD" ++ toString now) userId
              (req.senderId.getD "") 0 (req.audioFile.getD "")
              (req.audioFileType.getD "")] } userId
        = some u.credits := by
  have hcheck : creditCheck u.credits (0 : Nat) = true := by
    simp only [creditCheck, Bool.not_eq_true', decide_eq_false_iff_not]
    push_cast
    exact not_lt.mpr hbal
  refine ⟨?_, rfl, rfl, rfl, ?_⟩
  · unfold createCampaignSteps
    rw [hnum]
    simp [truthyList, hsid, haf, haft, firstInvalidNumber, huser, hcheck,
      bulkInsertRecipients]
  · simp [creditsOf, huser]

/-- Witness for the amended C10: an empty recipient list on a zero-balance
caller passes validation, commits the 0-recipient, 0-credit campaign row,
and is then answered 500 with no debit. -/
theorem claim10_witness :
    createCampaignSteps
      { users := [{ id := 1, name := "alice", email := "alice@example.com",
                    passwordHash := "hash", credits := 0,
                    isAdmin := false }],
        nextUserId := 2, campaigns := [], recipients := [] } 1
      { senderId := some "15551234567", receiverNumbers := some [],
        audioFile := some "http://cdn/f.mp3", audioFileType := some "mp3" }
      42 (GatewayOutcome.response "SENT OK")
      = ({ users := [{ id := 1, name := "alice",
                       email := "alice@example.com", passwordHash := "hash",
                       credits := 0, isAdmin := false }],
           nextUserId := 2,
           campaigns :=
             [mkCampaignRow "RD42" 1 "15551234567" 0 "http://cdn/f.mp3"
               "mp3"],
           recipients := [] },
         CampaignResult.errResp 500 "Failed to create campaign")
    ∧ (mkCampaignRow "RD42" 1 "15551234567" 0 "http://cdn/f.mp3"
        "mp3").recipientCount = 0
    ∧ (mkCampaignRow "RD42" 1 "15551234567" 0 "http://cdn/f.mp3"
        "mp3").creditsUsed = 0
    ∧ ({ users := [{ id := 1, name := "alice", email := "alice@example.com",
                     passwordHash := "hash", credits := 0,
                     isAdmin := false }],
         nextUserId := 2,
         campaigns :=
           [mkCampaignRow "RD42" 1 "15551234567" 0 "http://cdn/f.mp3"
             "mp3"],
         recipients := [] } : DBState).recipients = []
    ∧ creditsOf
        { users := [{ id := 1, name := "alice", email := "alice@example.com",
                      passwordHash := "hash", credits := 0,
                      isAdmin := false }],
          nextUserId := 2,
          campaigns :=
            [mkCampaignRow "RD42" 1 "15551234567" 0 "http://cdn/f.mp3"
              "mp3"],
          recipients := [] } 1
        = some 0 := by
  exact claim10_empty_recipient_list_amended
    { users := [{ id := 1, name := "alice", email := "alice@example.com",
                  passwordHash := "hash", credits := 0, isAdmin := false }],
      nextUserId := 2, campaigns := [], recipients := [] }
    1 42
    { senderId := some "15551234567", receiverNumbers := some [],
      audioFile := some "http://cdn/f.mp3", audioFileType := some "mp3" }
    { id := 1, name := "alice", email := "alice@example.com",
      passwordHash := "hash", credits := 0, isAdmin := false }
    (GatewayOutcome.response "SENT OK")
    rfl (by decide) (by decide) (by decide) rfl (by decide)

/-! ### Lemmas about the progress timer -/

/-- A cleared interval never changes the state again. -/
theorem simTick_inactive (inc : ℚ) (s : SimState) (h : s.active = false) :
    simTick inc s = s := by
  simp [simTick, h]

/-- Once the interval is cleared, every later tick leaves the state as it
is: the timer stops recurring. -/
theorem simRun_frozen (f : Nat → ℚ) (n : Nat)
    (h : (simRun f n).active = false) :
    ∀ m, n ≤ m → simRun f m = simRun f n := by
  intro m hm
  induction hm with
  | refl => rfl
  | step _ ih =>
      rename_i m' _
      rw [simRun, ih, simTick_inactive _ _ h]

/-- While the interval is live, the accumulator has not reached 100. -/
theorem simRun_active_progress_lt (f : Nat → ℚ) (n : Nat)
    (h : (simRun f n).active = true) : (simRun f n).progress < 100 := by
  induction n with
  | zero => norm_num [simRun, simInit]
  | succ n ih =>
      cases ha : (simRun f n).active with
      | false =>
          rw [simRun, simTick_inactive _ _ ha] at h
          simp [ha] at h
      | true =>
          by_cases hp : (100:ℚ) ≤ (simRun f n).progress + f n
          · simp [simRun, simTick, ha, hp] at h
          · have : (simRun f (n+1)).progress
                = (simRun f n).progress + f n := by
              simp [simRun, simTick, ha, hp]
            rw [this]
            exact not_le.mp hp

/-- While the interval is live the accumulator has absorbed one increment
per elapsed period, so a uniform lower bound on the increments bounds it
from below. -/
theorem simRun_active_progress_ge (f : Nat → ℚ) (ε : ℚ)
    (hεf : ∀ i, ε ≤ f i) (n : Nat)
    (h : (simRun f n).active = true) :
    (n : ℚ) * ε ≤ (simRun f n).progress := by
  induction n with
  | zero => simp [simRun, simInit]
  | succ n ih =>
      cases ha : (simRun f n).active with
      | false =>
          rw [simRun, simTick_inactive _ _ ha] at h
          simp [ha] at h
      | true =>
          by_cases hp : (100:ℚ) ≤ (simRun f n).progress + f n
          · simp [simRun, simTick, ha, hp] at h
          · have hpr : (simRun f (n+1)).progress
                = (simRun f n).progress + f n := by
              simp [simRun, simTick, ha, hp]
            rw [hpr]
            have h1 := ih ha
            have h2 := hεf n
            push_cast
            linarith

/-- A cleared interval has stored exactly `status = completed` and
`progress = 100`. -/
theorem simRun_inactive_completed (f : Nat → ℚ) (n : Nat)
    (h : (simRun f n).active = false) :
    (simRun f n).status = CampaignStatus.completed
      ∧ (simRun f n).stored = 100 := by
  induction n with
  | zero => simp [simRun, simInit] at h
  | succ n ih =>
      cases ha : (simRun f n).active with
      | false =>
          rw [simRun, simTick_inactive _ _ ha]
          exact ih ha
      | true =>
          by_cases hp : (100:ℚ) ≤ (simRun f n).progress + f n
          · constructor <;> simp [simRun, simTick, ha, hp]
          · simp [simRun, simTick, ha, hp] at h

/-- The stored progress column never exceeds 100: the completion branch
clamps to 100, and the other branch rounds a value below 100, which
rounds to at most 100. -/
theorem simRun_stored_le (f : Nat → ℚ) (n : Nat) :
    (simRun f n).stored ≤ 100 := by
  induction n with
  | zero => simp [simRun, simInit]
  | succ n ih =>
      cases ha : (simRun f n).active with
      | false => rw [simRun, simTick_inactive _ _ ha]; exact ih
      | true =>
          by_cases hp : (100:ℚ) ≤ (simRun f n).progress + f n
          · simp [simRun, simTick, ha, hp]
          · have hlt : (simRun f n).progress + f n < 100 := not_le.mp hp
            have hst : (simRun f (n+1)).stored
                = jsRound ((simRun f n).progress + f n) := by
              simp [simRun, simTick, ha, hp]
            rw [hst]
            unfold jsRound
            calc ⌊(simRun f n).progress + f n + 1 / 2⌋
                ≤ ⌊(201:ℚ) / 2⌋ := Int.floor_le_floor (by linarith)
              _ = 100 := by norm_num

/-- C6, counterexample to "given enough elapsed intervals it always
drives the campaign to progress 100 / completed": `Math.random() * 15`
only yields values in `[0, 15)`, and the all-zero increment sequence is in
that range yet leaves the campaign in `running` with progress 0 forever. -/
theorem claim6_counterexample_zero_increments :
    ∃ f : Nat → ℚ, (∀ i, 0 ≤ f i ∧ f i < 15)
      ∧ ∀ n, (simRun f n).status ≠ CampaignStatus.completed := by
  refine ⟨fun _ => 0, fun i => by norm_num, ?_⟩
  have hfix : ∀ n, simRun (fun _ => 0) n = simInit := by
    intro n
    induction n with
    | zero => rfl
    | succ n ih =>
        rw [simRun, ih]
        simp only [simTick, simInit]
        norm_num [jsRound]
  intro n
  rw [hfix n]
  decide

/-- C6 as amended: each elapsed five-unit period adds that period's
increment; the stored progress never exceeds 100; and whenever the
increments are bounded below by a positive amount, some number of periods
drives the campaign to exactly stored progress 100 with status
`completed`, after which the timer never fires again. -/
theorem claim6_amended_progress_updater
    (f : Nat → ℚ) (_hf : ∀ i, 0 ≤ f i ∧ f i < 15) :
    (∀ n, (simRun f n).stored ≤ 100)
    ∧ ∀ ε : ℚ, 0 < ε → (∀ i, ε ≤ f i) →
        ∃ n, (simRun f n).status = CampaignStatus.completed
          ∧ (simRun f n).stored = 100
          ∧ (simRun f n).active = false
          ∧ ∀ m, n ≤ m → simRun f m = simRun f n := by
  refine ⟨simRun_stored_le f, ?_⟩
  intro ε hε hεf
  obtain ⟨N, hN⟩ := exists_nat_ge ((100:ℚ) / ε)
  have hNε : (100:ℚ) ≤ (N : ℚ) * ε := by
    rw [div_le_iff₀ hε] at hN
    linarith
  have hinact : (simRun f N).active = false := by
    cases hA : (simRun f N).active with
    | false => rfl
    | true =>
        exfalso
        have h1 := simRun_active_progress_ge f ε hεf N hA
        have h2 := simRun_active_progress_lt f N hA
        linarith
  obtain ⟨hst, hstored⟩ := simRun_inactive_completed f N hinact
  exact ⟨N, hst, hstored, hinact, simRun_frozen f N hinact⟩

/-- Witness for the amended C6: with a constant increment of 10 per tick
the campaign completes at exactly 100 and the timer freezes. -/
theorem claim6_witness :
    (∀ n, (simRun (fun _ => 10) n).stored ≤ 100)
    ∧ ∃ n, (simRun (fun _ => 10) n).status = CampaignStatus.completed
        ∧ (simRun (fun _ => 10) n).stored = 100
        ∧ (simRun (fun _ => 10) n).active = false
        ∧ ∀ m, n ≤ m → simRun (fun _ => 10) m = simRun (fun _ => 10) n := by
  have h := claim6_amended_progress_updater (fun _ => 10)
    (fun i => by norm_num)
  exact ⟨h.1, h.2 10 (by norm_num) (fun i => le_refl 10)⟩

end RinglessDrop
